import Mathlib

/-!
Shallow embedding of the `@reach/radio-group` package
(`src/packages/radio-group/src/index.tsx`).

The embedding models:

* a registered descendant (`Descendant`, the entry that `useDescendant`
  stores in the ordered registry: the rendered element, if attached, and
  the `disabled` flag);
* the group state held by `RadioGroup` (controlled-vs-uncontrolled mode as
  captured on the first render, the current `index` prop, the internal
  `useState` selection, the registered descendants, and whether an
  `onChange` callback was supplied);
* `onSelect` (index.tsx lines 77-84), including the observable effects:
  the argument passed to `onChange`, the element focused, the JavaScript
  TypeError raised when `descendants[index]` is `undefined`, and the next
  group state;
* the per-`Radio` derived values `isInitial`, `isSelected`, `tabIndex`
  (lines 245-246 and 297) and the rendered label attributes (lines
  286-287);
* the controlled/uncontrolled warnings of lines 91-100;
* the keydown selection rule of lines 248-258, on top of a navigation
  helper modelled from the spec (the helper itself lives in
  `@reach/descendants`, outside the sources at hand).

JavaScript numbers used as list indices are modelled as `Nat`: every index
that the component itself produces is a registration ordinal (zero-based)
or such an ordinal plus one.  `undefined`/`null` props are modelled with
`Option` (`Option (Option Nat)` for the `index` prop, whose `undefined`
and `null` states behave differently).
-/

namespace ReachRadioGroup

/-- A registered descendant of the group: the entry created by
`useDescendant` (index.tsx lines 238-242).  `element` is the rendered DOM
node (identified by a number here), `none` while the ref is not attached;
`disabled` is the `disabled` prop of the `Radio`. -/
structure Descendant where
  element : Option Nat
  disabled : Bool
deriving DecidableEq

instance : Inhabited Descendant := ⟨⟨none, false⟩⟩

/-- State of a mounted `RadioGroup` (index.tsx lines 52-89).
`isControlled` is the value of `controlledIndex !== undefined` captured by
`useRef` on the first render (line 66); `indexProp` is the current `index`
prop (`none` = `undefined`, `some none` = `null`); `internalSelectedIndex`
is the `useState` cell of line 73; `hasOnChange` records whether an
`onChange` callback was supplied. -/
structure GroupState where
  isControlled : Bool
  indexProp : Option (Option Nat)
  internalSelectedIndex : Option Nat
  hasOnChange : Bool
  descendants : List Descendant
deriving DecidableEq

/-- The `selectedIndex` placed in the context (index.tsx line 87):
`isControlled ? controlledIndex! : internalSelectedIndex`. -/
def GroupState.selectedIndex (g : GroupState) : Option Nat :=
  if g.isControlled then g.indexProp.getD none else g.internalSelectedIndex

/-- Observable outcome of one `onSelect` call.  `onChangeCalled` is the
argument passed to the `onChange` callback (`none` when no callback was
supplied); `crashed` is `true` when the call throws the JavaScript
TypeError of reading `.element` on `undefined`; `focusedElement` is the
element that received focus, if any; `state` is the group state after the
call. -/
structure SelectOutcome where
  onChangeCalled : Option Nat
  crashed : Bool
  focusedElement : Option Nat
  state : GroupState
deriving DecidableEq

/-- `onSelect` (index.tsx lines 77-84):

```js
function onSelect(index) {
  onChange?.(index);
  descendants[index].element?.focus();
  if (!isControlled) { setInternalSelectedIndex(index); }
}
```

`onChange` runs first.  When `index` is outside the registered range,
`descendants[index]` is `undefined` and reading `.element` throws, so the
state update never runs; otherwise the attached element (if any) is
focused and, in an uncontrolled group, the internal selection is set. -/
def onSelect (g : GroupState) (index : Nat) : SelectOutcome :=
  let called := if g.hasOnChange then some index else none
  if h : index < g.descendants.length then
    { onChangeCalled := called
      crashed := false
      focusedElement := g.descendants[index].element
      state :=
        if g.isControlled then g
        else { g with internalSelectedIndex := some index } }
  else
    { onChangeCalled := called
      crashed := true
      focusedElement := none
      state := g }

/-- `handleClick` of a `Radio` (index.tsx lines 260-262): invokes
`onSelect` with the radio's own registration index, with no check of the
`disabled` flag. -/
def handleClick (g : GroupState) (index : Nat) : SelectOutcome :=
  onSelect g index

/-- `isInitial` (index.tsx line 245):
`selectedIndex === null && index === 0 && !disabled`. -/
def isInitial (selectedIndex : Option Nat) (index : Nat) (disabled : Bool) : Bool :=
  selectedIndex == none && index == 0 && !disabled

/-- `isSelected` (index.tsx line 246): `index === selectedIndex`. -/
def isSelected (selectedIndex : Option Nat) (index : Nat) : Bool :=
  some index == selectedIndex

/-- The rendered `tabIndex` attribute (index.tsx line 297):
`isInitial ? 0 : index === selectedIndex ? 0 : -1`. -/
def tabIndex (selectedIndex : Option Nat) (index : Nat) (disabled : Bool) : Int :=
  if isInitial selectedIndex index disabled then 0
  else if isSelected selectedIndex index then 0
  else -1

/-- JavaScript truthiness of an optional string (`undefined` and the empty
string are falsy). -/
def truthy : Option String → Bool
  | some s => !(s == "")
  | none => false

/-- The rendered `aria-label` attribute of a `Radio` (index.tsx line 286):
the `aria-label` prop, passed through. -/
def renderedAriaLabel (ariaLabel : Option String) : Option String :=
  ariaLabel

/-- The rendered `aria-labelledby` attribute of a `Radio` (index.tsx line
287): `ariaLabel ? undefined : ariaLabelledby` — suppressed whenever the
`aria-label` prop is truthy. -/
def renderedAriaLabelledby (ariaLabel ariaLabelledby : Option String) :
    Option String :=
  if truthy ariaLabel then none else ariaLabelledby

/-- Source of a radio's accessible label. -/
inductive AccessibleLabel where
  | ref (id : String)
  | str (s : String)
  | content
deriving DecidableEq

/-- The accessible label computed from the rendered attributes, per the
accessible-name algorithm the spec appeals to: a rendered
`aria-labelledby` reference wins, then a rendered non-empty `aria-label`
string, then the element's own content. -/
def accessibleLabel (ariaLabel ariaLabelledby : Option String) :
    AccessibleLabel :=
  match renderedAriaLabelledby ariaLabel ariaLabelledby with
  | some id => AccessibleLabel.ref id
  | none =>
    if truthy (renderedAriaLabel ariaLabel) then
      AccessibleLabel.str ((renderedAriaLabel ariaLabel).getD "")
    else AccessibleLabel.content

/-- The ordinals of the enabled descendants, in registration order: the
`filter: (radio) => !radio.disabled` of index.tsx line 257 applied to the
ordered registry. -/
def enabledIndices (ds : List Descendant) : List Nat :=
  (List.range ds.length).filter (fun i => !(ds.getD i default).disabled)

/-- A directional navigation key: next (ArrowRight/ArrowDown) or previous
(ArrowLeft/ArrowUp); the group uses orientation "both" (index.tsx line
250), so both axes behave alike. -/
inductive NavDir where
  | next
  | prev
deriving DecidableEq

/-- One forward step through the cyclic list `e` of selectable ordinals,
starting after the first occurrence of `c`: the element following `c`,
wrapping to the head when `c` is last (or absent). -/
def navStep (e : List Nat) (c : Nat) : Option Nat :=
  match e.dropWhile (fun x => !(x == c)) with
  | [] => e.head?
  | [_] => e.head?
  | _ :: b :: _ => some b

/-- Modelled from the spec: the roving-keyboard-navigation helper
(`useDescendantKeyDown` of `@reach/descendants`, an external collaborator
whose source is not among the files at hand).  Per the spec it "computes
next-target ordinal given current index, orientation 'both axes', and a
filter excluding disabled entries"; movement wraps at the ends and
disabled Members are skipped entirely.  When no Member is selected
(`cur = none`) the computed target is the initial position, the first
enabled Member (the spec's no-selection rule has navigation reach the
initial Member and then advance past it). -/
def navTarget (ds : List Descendant) (cur : Option Nat) (dir : NavDir) :
    Option Nat :=
  match cur with
  | none => (enabledIndices ds).head?
  | some c =>
    match dir with
    | NavDir.next => navStep (enabledIndices ds) c
    | NavDir.prev => navStep (enabledIndices ds).reverse c

/-- The ordinal a directional key press selects (index.tsx lines 248-258):
the navigation helper computes a target from `currentIndex: selectedIndex`
and the callback runs `onSelect(isInitial ? index + 1 : index)`, where
`isInitial` belongs to the `Radio` handling the event (its registration
index `i` and `disabled` flag `d`).  `none` when navigation produced no
target (no enabled descendants). -/
def keyNavSelect (ds : List Descendant) (i : Nat) (d : Bool)
    (selectedIndex : Option Nat) (dir : NavDir) : Option Nat :=
  (navTarget ds selectedIndex dir).map
    (fun t => if isInitial selectedIndex i d then t + 1 else t)

/-- Props of `RadioGroup` relevant to mode and selection (index.tsx lines
52-63): `indexProp` is the `index` prop (`none` = `undefined`,
`some none` = `null`), `defaultIndex` the initial uncontrolled selection,
`hasOnChange` whether an `onChange` callback is supplied. -/
structure RadioGroupProps where
  indexProp : Option (Option Nat)
  defaultIndex : Option Nat
  hasOnChange : Bool
deriving DecidableEq

/-- `wasControlled` (index.tsx line 65): `controlledIndex !== undefined`,
recomputed on every render from the current props. -/
def wasControlled (p : RadioGroupProps) : Bool :=
  p.indexProp.isSome

/-- Warning text of index.tsx lines 92-95. -/
def uncontrolledToControlledMsg : String :=
  "RadioGroup is changing from uncontrolled to controlled."

/-- Warning text of index.tsx lines 96-99. -/
def controlledToUncontrolledMsg : String :=
  "RadioGroup is changing from controlled to uncontrolled."

/-- The developer warnings emitted by a render (index.tsx lines 91-100):
`warning(cond, msg)` fires when `cond` is falsy, so the first fires when
`!isControlled && wasControlled` and the second when
`isControlled && !wasControlled`.  `isControlled` is the mode captured on
the first render; `p` the props of the current render. -/
def renderWarnings (isControlled : Bool) (p : RadioGroupProps) :
    List String :=
  (if !isControlled && wasControlled p then [uncontrolledToControlledMsg]
   else [])
  ++ (if isControlled && !(wasControlled p) then
        [controlledToUncontrolledMsg]
      else [])

/-- The `selectedIndex` the context exposes on a render (index.tsx line
87), as a function of the mode captured on the first render, the current
props and the internal state:
`isControlled ? controlledIndex! : internalSelectedIndex`. -/
def contextSelectedIndex (isControlled : Bool) (p : RadioGroupProps)
    (internal : Option Nat) : Option Nat :=
  if isControlled then p.indexProp.getD none else internal

/-- The spec's three-member example registry `[A(enabled), B(disabled),
C(enabled)]`, with elements 10, 11, 12 attached. -/
def exampleABC : List Descendant :=
  [⟨some 10, false⟩, ⟨some 11, true⟩, ⟨some 12, false⟩]

/-- An uncontrolled group with an `onChange` callback, no selection yet,
and members `[enabled, disabled]` — the scenario of a click on a disabled
member. -/
def clickGroup : GroupState :=
  { isControlled := false
    indexProp := none
    internalSelectedIndex := none
    hasOnChange := true
    descendants := [⟨some 10, false⟩, ⟨some 11, true⟩] }

/-- An uncontrolled group with three registered members and member 1
selected — the scenario of an out-of-range `onSelect`. -/
def rangeGroup : GroupState :=
  { isControlled := false
    indexProp := none
    internalSelectedIndex := some 1
    hasOnChange := true
    descendants := [⟨some 10, false⟩, ⟨some 11, false⟩, ⟨some 12, false⟩] }

/-- A controlled group (`index = 1`) with an `onChange` callback and two
registered members — the spec's controlled example scenario. -/
def controlledGroup : GroupState :=
  { isControlled := true
    indexProp := some (some 1)
    internalSelectedIndex := none
    hasOnChange := true
    descendants := [⟨some 10, false⟩, ⟨some 11, false⟩] }

/-- Props of a render that supplies no `index` (uncontrolled). -/
def uncontrolledProps : RadioGroupProps :=
  { indexProp := none, defaultIndex := none, hasOnChange := false }

/-- Props of a render that supplies `index = 2`. -/
def controlledProps : RadioGroupProps :=
  { indexProp := some (some 2), defaultIndex := none, hasOnChange := true }

/-! ### List helper lemmas -/

theorem mem_of_mem_dropWhile {p : Nat → Bool} {l : List Nat} {x : Nat}
    (h : x ∈ l.dropWhile p) : x ∈ l := by
  induction l with
  | nil => simp at h
  | cons a t ih =>
    rw [List.dropWhile_cons] at h
    by_cases hp : p a = true
    · rw [if_pos hp] at h
      exact List.mem_cons_of_mem _ (ih h)
    · rw [if_neg hp] at h
      exact h

theorem mem_of_getLast?_eq {l : List Nat} {c : Nat}
    (h : l.getLast? = some c) : c ∈ l := by
  have hne : l ≠ [] := by
    intro hl
    rw [hl] at h
    simp at h
  rw [List.getLast?_eq_getLast_of_ne_nil hne] at h
  rw [← Option.some.inj h]
  exact List.getLast_mem hne

/-- In a duplicate-free list, dropping everything before the last element
leaves exactly that element. -/
theorem dropWhile_ne_getLast? {l : List Nat} {c : Nat} (hnd : l.Nodup)
    (h : l.getLast? = some c) :
    l.dropWhile (fun x => !(x == c)) = [c] := by
  induction l with
  | nil => simp at h
  | cons a t ih =>
    cases t with
    | nil =>
      simp at h
      subst h
      simp [List.dropWhile_cons]
    | cons b t' =>
      have hlast : (b :: t').getLast? = some c := by
        simpa [List.getLast?_cons_cons] using h
      have hcmem : c ∈ b :: t' := mem_of_getLast?_eq hlast
      have hnotmem : a ∉ b :: t' := (List.nodup_cons.mp hnd).1
      have hane : a ≠ c := fun hac => hnotmem (hac ▸ hcmem)
      rw [List.dropWhile_cons, if_pos (by simpa using hane)]
      exact ih (List.nodup_cons.mp hnd).2 hlast

theorem navStep_mem {e : List Nat} {c t : Nat} (h : navStep e c = some t) :
    t ∈ e := by
  unfold navStep at h
  split at h
  · cases e with
    | nil => simp at h
    | cons a l =>
      simp at h
      subst h
      exact List.mem_cons_self a l
  · cases e with
    | nil => simp at h
    | cons a l =>
      simp at h
      subst h
      exact List.mem_cons_self a l
  · rename_i x b rest heq
    have hb : t ∈ e.dropWhile (fun x => !(x == c)) := by
      rw [heq]
      rw [Option.some.inj h]
      simp
    exact mem_of_mem_dropWhile hb

/-- Stepping from the last element of a duplicate-free list wraps to its
head. -/
theorem navStep_getLast {e : List Nat} {c : Nat} (hnd : e.Nodup)
    (h : e.getLast? = some c) : navStep e c = e.head? := by
  unfold navStep
  rw [dropWhile_ne_getLast? hnd h]

theorem mem_enabledIndices {ds : List Descendant} {i : Nat} :
    i ∈ enabledIndices ds ↔
      i < ds.length ∧ (ds.getD i default).disabled = false := by
  simp [enabledIndices, List.mem_filter, List.mem_range]

theorem enabledIndices_nodup (ds : List Descendant) :
    (enabledIndices ds).Nodup :=
  (List.nodup_range ds.length).filter _

/-- When the group is nonempty and its first member is enabled, ordinal 0
heads the enabled-member list. -/
theorem enabledIndices_head (ds : List Descendant) (hne : ds ≠ [])
    (h0 : (ds.getD 0 default).disabled = false) :
    (enabledIndices ds).head? = some 0 := by
  obtain ⟨n, hn⟩ : ∃ n, ds.length = n + 1 := by
    cases hd : ds with
    | nil => exact absurd hd hne
    | cons a t => exact ⟨t.length, by simp⟩
  unfold enabledIndices
  rw [hn, List.range_succ_eq_map, List.filter_cons,
    if_pos (by simp only [h0, Bool.not_false])]
  rfl

/-! ### Claim theorems -/

/-- C1: the spec requires `onSelect(i)` with an ordinal outside the
current membership to be a no-op (no selection change, no focus move, no
out-of-range fault).  The code instead throws: with three registered
descendants, `onSelect(3)` reads `.element` of `descendants[3]`
(`undefined`), a TypeError — and the `onChange` callback has already been
invoked with the out-of-range index.  Selection indeed does not change and
no focus moves, but the call crashes rather than being ignored. -/
theorem onSelect_outOfRange_crashes :
    rangeGroup.descendants.length = 3
    ∧ (onSelect rangeGroup 3).crashed = true
    ∧ (onSelect rangeGroup 3).onChangeCalled = some 3
    ∧ (onSelect rangeGroup 3).state = rangeGroup
    ∧ (onSelect rangeGroup 3).state.selectedIndex = rangeGroup.selectedIndex
    ∧ (onSelect rangeGroup 3).focusedElement = none := by
  decide

/-- C2: the spec says a click on a disabled Member never invokes `select`
and never changes `selectedIndex`, while a click on an enabled Member
invokes `select(ownOrdinal)`.  The enabled half holds, but `handleClick`
invokes `onSelect(index)` without consulting `disabled`: clicking the
disabled member 1 of an uncontrolled group invokes `onChange(1)` and sets
`selectedIndex` to 1. -/
theorem click_disabled_selects :
    ((clickGroup.descendants.getD 1 default).disabled = true
      ∧ clickGroup.selectedIndex = none
      ∧ (handleClick clickGroup 1).onChangeCalled = some 1
      ∧ (handleClick clickGroup 1).state.selectedIndex = some 1)
    ∧ ((clickGroup.descendants.getD 0 default).disabled = false
      ∧ (handleClick clickGroup 0).onChangeCalled = some 0
      ∧ (handleClick clickGroup 0).state.selectedIndex = some 0) := by
  decide

/-- C3: when nothing is selected and the event Member is the first and
enabled (`isInitial`), a directional key press selects the Member after
the initial one (ordinal 1), not the computed target itself; in every
other situation the key press selects the computed target's own
ordinal. -/
theorem keyNav_initial_rule (ds : List Descendant) :
    (ds ≠ [] → (ds.getD 0 default).disabled = false →
      ∀ dir, keyNavSelect ds 0 false none dir = some 1)
    ∧ (∀ i d sel dir, isInitial sel i d = false →
        keyNavSelect ds i d sel dir = navTarget ds sel dir) := by
  constructor
  · intro hne h0 dir
    have hhead := enabledIndices_head ds hne h0
    simp [keyNavSelect, navTarget, hhead, isInitial]
  · intro i d sel dir h
    simp [keyNavSelect, h]

/-- Witness for C3 on the three-member example: with no selection, a
"next" press handled by the enabled first member selects ordinal 1; with
member 2 selected (`isInitial` false) the press selects the computed
target itself. -/
theorem keyNav_initial_rule_witness :
    keyNavSelect exampleABC 0 false none NavDir.next = some 1
    ∧ keyNavSelect exampleABC 0 false (some 2) NavDir.next
        = navTarget exampleABC (some 2) NavDir.next :=
  ⟨(keyNav_initial_rule exampleABC).1 (by decide) (by decide) NavDir.next,
   (keyNav_initial_rule exampleABC).2 0 false (some 2) NavDir.next
     (by decide)⟩

/-- C4: for an in-range index, `onSelect` calls `onChange` with the index
exactly when a callback is supplied and does not crash; an uncontrolled
group updates its stored selection to the index; a controlled group keeps
its state (and hence its externally supplied `selectedIndex`)
unchanged. -/
theorem select_inRange_effects (g : GroupState) (i : Nat)
    (hi : i < g.descendants.length) :
    ((onSelect g i).onChangeCalled
        = if g.hasOnChange then some i else none)
    ∧ (onSelect g i).crashed = false
    ∧ (g.isControlled = false →
        (onSelect g i).state.selectedIndex = some i)
    ∧ (g.isControlled = true →
        (onSelect g i).state = g
        ∧ (onSelect g i).state.selectedIndex = g.selectedIndex) := by
  refine ⟨?_, ?_, ?_, ?_⟩
  · simp [onSelect, hi]
  · simp [onSelect, hi]
  · intro hc
    simp [onSelect, hi, hc, GroupState.selectedIndex]
  · intro hc
    simp [onSelect, hi, hc]

/-- Witness for C4: the spec's controlled scenario (`index = 1`,
activating item 0 invokes `onChange(0)` while `selectedIndex` stays 1) and
an uncontrolled activation that stores the new index. -/
theorem select_inRange_effects_witness :
    (onSelect controlledGroup 0).onChangeCalled = some 0
    ∧ (onSelect controlledGroup 0).state.selectedIndex = some 1
    ∧ (onSelect rangeGroup 0).state.selectedIndex = some 0 := by
  refine ⟨?_, ?_, ?_⟩
  · exact ((select_inRange_effects controlledGroup 0 (by decide)).1).trans
      (by decide)
  · have h := ((select_inRange_effects controlledGroup 0
      (by decide)).2.2.2 rfl).1
    exact (congrArg GroupState.selectedIndex h).trans (by decide)
  · exact (select_inRange_effects rangeGroup 0 (by decide)).2.2.1 rfl

/-- C5: directional navigation only ever targets enabled members; "next"
from the last enabled member wraps to the first enabled one and "previous"
from the first wraps to the last; on the spec's `[A(enabled), B(disabled),
C(enabled)]` example, "next" from A lands on C. -/
theorem nav_skips_disabled_and_wraps (ds : List Descendant) :
    (∀ cur dir t, navTarget ds cur dir = some t →
        t < ds.length ∧ (ds.getD t default).disabled = false)
    ∧ (∀ l, (enabledIndices ds).getLast? = some l →
        navTarget ds (some l) NavDir.next = (enabledIndices ds).head?)
    ∧ (∀ a, (enabledIndices ds).head? = some a →
        navTarget ds (some a) NavDir.prev = (enabledIndices ds).getLast?)
    ∧ navTarget exampleABC (some 0) NavDir.next = some 2 := by
  refine ⟨?_, ?_, ?_, by decide⟩
  · intro cur dir t h
    have hmem : t ∈ enabledIndices ds := by
      cases cur with
      | none =>
        cases he : enabledIndices ds with
        | nil => simp [navTarget, he] at h
        | cons a l =>
          simp [navTarget, he] at h
          subst h
          exact List.mem_cons_self a l
      | some c =>
        cases dir with
        | next => exact navStep_mem h
        | prev =>
          have := navStep_mem (e := (enabledIndices ds).reverse) h
          exact List.mem_reverse.mp this
    exact mem_enabledIndices.mp hmem
  · intro l hl
    exact navStep_getLast (enabledIndices_nodup ds) hl
  · intro a ha
    have hrev : (enabledIndices ds).reverse.getLast? = some a := by
      rw [List.getLast?_reverse]
      exact ha
    have hnd : (enabledIndices ds).reverse.Nodup :=
      List.nodup_reverse.mpr (enabledIndices_nodup ds)
    have := navStep_getLast hnd hrev
    calc navTarget ds (some a) NavDir.prev
        = (enabledIndices ds).reverse.head? := this
      _ = (enabledIndices ds).getLast? := List.head?_reverse _

/-- Witness for C5 on the example registry (enabled ordinals `[0, 2]`):
"next" from 2 wraps to 0, "previous" from 0 wraps to 2, "next" from A
skips disabled B and lands on C, and every produced target is an enabled
in-range ordinal. -/
theorem nav_skips_disabled_and_wraps_witness :
    navTarget exampleABC (some 2) NavDir.next = some 0
    ∧ navTarget exampleABC (some 0) NavDir.prev = some 2
    ∧ navTarget exampleABC (some 0) NavDir.next = some 2
    ∧ 2 < exampleABC.length
    ∧ (exampleABC.getD 2 default).disabled = false := by
  refine ⟨?_, ?_, (nav_skips_disabled_and_wraps exampleABC).2.2.2, ?_⟩
  · exact ((nav_skips_disabled_and_wraps exampleABC).2.1 2
      (by decide)).trans (by decide)
  · exact ((nav_skips_disabled_and_wraps exampleABC).2.2.1 0
      (by decide)).trans (by decide)
  · exact (nav_skips_disabled_and_wraps exampleABC).1 (some 0) NavDir.next 2
      (by decide)

/-- C6: a member's rendered `tabIndex` is 0 exactly when it is selected or
it is the initial member; otherwise it is -1; with no selection and an
enabled first member, member 0 gets 0, every later member gets -1, and no
member is selected. -/
theorem tabIndex_rule (sel : Option Nat) (i : Nat) (d : Bool) :
    (tabIndex sel i d = 0
      ↔ (isSelected sel i = true ∨ isInitial sel i d = true))
    ∧ (isSelected sel i = false → isInitial sel i d = false →
        tabIndex sel i d = -1)
    ∧ tabIndex none 0 false = 0
    ∧ (0 < i → tabIndex none i d = -1)
    ∧ isSelected none i = false := by
  refine ⟨?_, ?_, by decide, ?_, rfl⟩
  · unfold tabIndex
    cases h1 : isInitial sel i d <;> cases h2 : isSelected sel i <;>
      simp [h1, h2]
  · intro h2 h1
    simp [tabIndex, h1, h2]
  · intro hi0
    cases i with
    | zero => exact absurd hi0 (by decide)
    | succ n => rfl

/-- Witness for C6: a selected member gets `tabIndex` 0; with no
selection, member 1 gets -1. -/
theorem tabIndex_rule_witness :
    tabIndex (some 2) 2 false = 0 ∧ tabIndex none 1 false = -1 :=
  ⟨(tabIndex_rule (some 2) 2 false).1.mpr (Or.inl (by decide)),
   (tabIndex_rule (some 2) 1 false).2.2.2.1 (by decide)⟩

/-- C7: at most one member is selected at a time — two members both
reading `isSelected = true` against the same `selectedIndex` have the same
ordinal. -/
theorem at_most_one_selected (sel : Option Nat) (i j : Nat)
    (hi : isSelected sel i = true) (hj : isSelected sel j = true) :
    i = j := by
  simp [isSelected] at hi hj
  exact Option.some.inj (hi.trans hj.symm)

/-- Witness for C7 at `selectedIndex = some 2`. -/
theorem at_most_one_selected_witness :
    isSelected (some 2) 2 = true ∧ (2 : Nat) = 2 :=
  ⟨by decide, at_most_one_selected (some 2) 2 2 (by decide) (by decide)⟩

/-- C8: a render warns exactly when the presence of the `index` prop flips
relative to the first render, and a group whose first render was
uncontrolled keeps exposing its internal selection whatever `index` prop a
later render supplies. -/
theorem mode_fixed_and_warned (p0 p : RadioGroupProps)
    (internal : Option Nat) :
    (renderWarnings (wasControlled p0) p ≠ []
      ↔ wasControlled p ≠ wasControlled p0)
    ∧ (wasControlled p0 = false →
        contextSelectedIndex (wasControlled p0) p internal = internal) := by
  constructor
  · cases h0 : wasControlled p0 <;> cases hp : wasControlled p <;>
      simp [renderWarnings, h0, hp]
  · intro h
    simp [contextSelectedIndex, h]

/-- Witness for C8: a group that mounted without an `index` prop and later
receives `index = 2` emits a warning yet still exposes its internal
selection. -/
theorem mode_fixed_and_warned_witness :
    renderWarnings (wasControlled uncontrolledProps) controlledProps ≠ []
    ∧ contextSelectedIndex (wasControlled uncontrolledProps)
        controlledProps (some 0) = some 0 :=
  ⟨(mode_fixed_and_warned uncontrolledProps controlledProps
      (some 0)).1.mpr (by decide),
   (mode_fixed_and_warned uncontrolledProps controlledProps (some 0)).2
     (by decide)⟩

/-- C9 counterexample: when both an `aria-label` and an `aria-labelledby`
prop are supplied, the rendered `aria-labelledby` attribute is suppressed
and the accessible label comes from the label string — the explicit label
reference is not used, contradicting the claimed precedence. -/
theorem label_reference_not_used :
    renderedAriaLabelledby (some "A") (some "label-id") = none
    ∧ accessibleLabel (some "A") (some "label-id") = AccessibleLabel.str "A"
    ∧ accessibleLabel (some "A") (some "label-id")
        ≠ AccessibleLabel.ref "label-id" := by
  decide

/-- C9 (amended): a non-empty `aria-label` string takes precedence — it
becomes the accessible label and suppresses the rendered `aria-labelledby`
attribute; the label reference is used when no (truthy) label string is
supplied; with neither, the member's own content is the implicit label. -/
theorem label_precedence (s : String) (lb : Option String) (id : String)
    (hs : s ≠ "") :
    accessibleLabel (some s) lb = AccessibleLabel.str s
    ∧ renderedAriaLabelledby (some s) lb = none
    ∧ accessibleLabel none (some id) = AccessibleLabel.ref id
    ∧ accessibleLabel none none = AccessibleLabel.content := by
  have ht : truthy (some s) = true := by simp [truthy, hs]
  refine ⟨?_, ?_, rfl, rfl⟩
  · simp [accessibleLabel, renderedAriaLabelledby, renderedAriaLabel, ht]
  · simp [renderedAriaLabelledby, ht]

/-- Witness for C9 (amended) at concrete label inputs. -/
theorem label_precedence_witness :
    accessibleLabel (some "A") (some "other-id") = AccessibleLabel.str "A" :=
  (label_precedence "A" (some "other-id") "x" (by decide)).1

/-- C10: an in-range `onSelect` focuses the attached element of the member
at the given ordinal, even when the group is controlled (in which case the
call leaves the group state unchanged). -/
theorem select_focuses_inRange (g : GroupState) (i : Nat) (e : Nat)
    (hi : i < g.descendants.length)
    (he : (g.descendants.get ⟨i, hi⟩).element = some e) :
    (onSelect g i).focusedElement = some e
    ∧ (g.isControlled = true → (onSelect g i).state = g) := by
  constructor
  · simp only [onSelect, hi, dite_true]
    simpa [List.get_eq_getElem] using he
  · intro hc
    simp [onSelect, hi, hc]

/-- Witness for C10: in the controlled group, `onSelect 0` focuses element
10 and leaves the state unchanged. -/
theorem select_focuses_inRange_witness :
    (onSelect controlledGroup 0).focusedElement = some 10
    ∧ (onSelect controlledGroup 0).state = controlledGroup :=
  ⟨(select_focuses_inRange controlledGroup 0 10 (by decide) (by decide)).1,
   (select_focuses_inRange controlledGroup 0 10 (by decide) (by decide)).2
     rfl⟩

end ReachRadioGroup
